import Mathlib

/-!
Verification of the token-resolution component described in spec.md against
the repository. The resolver itself (server/auth.py) is absent from the
snapshot; its behaviour is modelled from the spec, with the error raised on
the no-token path pinned by the repository's own test suite
(src/AI/mcp/tests/server/test_auth.py). The Langfuse initialization guard is
modelled directly from src/AI/agents/shared/utils/langfuse_utils.py.

Modelling conventions: a Python str is a List Char; a header mapping is a
list of name/value pairs; Python None is Option.none; a Python function that
can raise returns Except PyExc.
-/

/-- Python strings, modelled as lists of characters. -/
abbrev PyStr := List Char

/-- A request-header mapping: a list of header name / value pairs. -/
abbrev Headers := List (PyStr × PyStr)

/-- Lowercase every character of a string (Python str.lower). -/
def lowerStr (s : PyStr) : PyStr := s.map Char.toLower

/-- The header name the resolver consults. -/
def authKey : PyStr := "authorization".toList

/-- The lowercase bearer scheme marker: keyword plus the one separating space. -/
def bearerScheme : PyStr := "bearer ".toList

/-- The lowercase token scheme marker: keyword plus the one separating space. -/
def tokenScheme : PyStr := "token ".toList

/-- Case-insensitive lookup of a header value by name (first match wins).
Modelled from the spec: "Looks up the authorization entry case-insensitively
on the header name." -/
def lookupCI (key : PyStr) : Headers → Option PyStr
  | [] => none
  | (k, v) :: rest => if lowerStr k = lowerStr key then some v else lookupCI key rest

/-- The scheme-matching step of get_request_token: the header value is matched
case-insensitively on the scheme keyword only, against "bearer <token>" and
"token <token>", and the substring after the keyword and the one separating
space is returned verbatim; anything else yields none. -/
def schemeToken (v : PyStr) : Option PyStr :=
  if lowerStr (v.take 7) = bearerScheme then some (v.drop 7)
  else if lowerStr (v.take 6) = tokenScheme then some (v.drop 6)
  else none

/-- Modelled from the spec: server/auth.py is missing from the snapshot (only
its tests are under src). extract_token / get_request_token per spec.md 4.1:
look up the authorization header case-insensitively on the name; if present,
match the value against the two recognized schemes, case-insensitively on the
scheme keyword only; return the substring after the keyword and separating
space verbatim; return none when the header is absent, empty, or the value
does not start with a recognized scheme followed by a space. -/
def get_request_token (headers : Headers) : Option PyStr :=
  match lookupCI authKey headers with
  | none => none
  | some v => schemeToken v

/-- Python exception values reaching the resolver's callers. valueError is the
builtin generic ValueError; exception stands for an arbitrary Exception raised
by the request-context provider; noTokenError is the typed, distinguishable
auth failure the spec prescribes (NoTokenError / AuthenticationError), which
nothing in the repository defines or raises. -/
inductive PyExc where
  | valueError (msg : PyStr)
  | exception (msg : PyStr)
  | noTokenError (msg : PyStr)
deriving DecidableEq

/-- Definition following the spec's words (for the refinement in C1): true
exactly on the typed, distinguishable auth failure the spec prescribes
(NoTokenError / AuthenticationError), false on builtin generic exception
types such as ValueError. -/
def PyExc.isTypedAuthFailure : PyExc → Bool
  | .noTokenError _ => true
  | _ => false

/-- The no-token failure message, pinned by the repository test
test_raises_value_error_when_no_token_available, whose regex match is
"No Gitea API token found". -/
def noTokenMsg : PyStr := "No Gitea API token found".toList

/-- The header-acquisition step of get_gitea_token_with_fallback: an explicit
mapping is used as-is; given the ambient-context sentinel (None), the injected
request-context provider's outcome ctx is consulted, and a provider error is
swallowed and treated as "no headers available" (the empty mapping). -/
def resolveHeaders (headers : Option Headers) (ctx : Except PyExc Headers) : Headers :=
  match headers with
  | some h => h
  | none =>
    match ctx with
    | .ok h => h
    | .error _ => []

/-- Modelled from the spec: server/auth.py is missing from the snapshot.
get_gitea_token_with_fallback per spec.md 4.1: obtain headers (explicit
mapping, or the injected context provider with errors swallowed), delegate to
get_request_token, and return a header-derived token immediately; otherwise
return FALLBACK_GITEA_TOKEN when it is set (non-empty); otherwise fail. The
failure is pinned by the repository test
test_raises_value_error_when_no_token_available: a builtin ValueError
matching "No Gitea API token found". -/
def get_gitea_token_with_fallback (headers : Option Headers)
    (ctx : Except PyExc Headers) (fallback : Option PyStr) : Except PyExc PyStr :=
  match get_request_token (resolveHeaders headers ctx) with
  | some t => .ok t
  | none =>
    match fallback with
    | some f => if f = [] then .error (.valueError noTokenMsg) else .ok f
    | none => .error (.valueError noTokenMsg)

/-- Configuration fields read by init_langfuse
(src/AI/agents/shared/utils/langfuse_utils.py). -/
structure LangfuseConfig where
  enabled : Bool
  secretKey : PyStr
  publicKey : PyStr
  host : PyStr
  release : PyStr
  environment : PyStr

/-- A constructed Langfuse SDK client, identified by the configuration values
it was built from (the SDK itself is an external collaborator). -/
structure LangfuseClient where
  secretKey : PyStr
  publicKey : PyStr
  host : PyStr
  release : PyStr
  environment : PyStr

/-- The module-level mutable globals of langfuse_utils.py: _client and
_initialized (the latter is the field inited here). -/
structure LangfuseState where
  client : Option LangfuseClient
  inited : Bool

/-- Shallow embedding of init_langfuse from
src/AI/agents/shared/utils/langfuse_utils.py. The module globals are passed
and returned as explicit state; mk models the fallible Langfuse(...)
constructor. Returns the module state after the call together with the call's
return value: an already-initialized state returns _client unchanged; a
disabled configuration returns None without touching state; a successful
construction stores the client and sets the flag; a constructor exception
leaves the state unchanged and returns None. -/
def init_langfuse (cfg : LangfuseConfig)
    (mk : LangfuseConfig → Except PyStr LangfuseClient) (s : LangfuseState) :
    LangfuseState × Option LangfuseClient :=
  if s.inited then (s, s.client)
  else if cfg.enabled = false then (s, none)
  else
    match mk cfg with
    | .ok c => (⟨some c, true⟩, some c)
    | .error _ => (s, none)

/-- Sample configuration used by witnesses. -/
def cfgSample : LangfuseConfig := ⟨true, [], [], [], [], []⟩

/-- Sample constructed client used by witnesses. -/
def clientSample : LangfuseClient := ⟨[], [], [], [], []⟩

/-- Sample already-initialized module state used by witnesses. -/
def stateSample : LangfuseState := ⟨some clientSample, true⟩

/-- Helper: the scheme-matching step yields nothing exactly when neither
recognized scheme marker starts the value (case-insensitively). -/
theorem schemeToken_eq_none_iff (v : PyStr) :
    schemeToken v = none ↔
      lowerStr (v.take 7) ≠ bearerScheme ∧ lowerStr (v.take 6) ≠ tokenScheme := by
  unfold schemeToken
  by_cases hb : lowerStr (v.take 7) = bearerScheme
  · simp [hb]
  · by_cases ht : lowerStr (v.take 6) = tokenScheme
    · simp [hb, ht]
    · simp [hb, ht]

/-- Claim C2: for every token string t and every scheme spelling s among
bearer, Bearer, BEARER, token and Token, get_request_token applied to a
mapping whose authorization entry is s, a single space, then t returns
exactly t: the scheme keyword is matched case-insensitively and the token
value is returned unchanged. -/
theorem scheme_keyword_case_insensitive_extract (t : PyStr) :
    get_request_token [(authKey, "bearer ".toList ++ t)] = some t ∧
    get_request_token [(authKey, "Bearer ".toList ++ t)] = some t ∧
    get_request_token [(authKey, "BEARER ".toList ++ t)] = some t ∧
    get_request_token [(authKey, "token ".toList ++ t)] = some t ∧
    get_request_token [(authKey, "Token ".toList ++ t)] = some t := by
  refine ⟨rfl, rfl, rfl, rfl, rfl⟩

/-- Claim C3: get_request_token returns none exactly when the authorization
header is absent, its value is empty, or its value does not start with a
recognized scheme keyword followed by a space; in particular the unrecognized
scheme value "Basic xyz" yields none. -/
theorem get_request_token_none_iff :
    (∀ headers : Headers,
      (get_request_token headers = none ↔
        lookupCI authKey headers = none ∨
          ∃ v, lookupCI authKey headers = some v ∧
            (v = [] ∨
              (lowerStr (v.take 7) ≠ bearerScheme ∧ lowerStr (v.take 6) ≠ tokenScheme))))
    ∧ get_request_token [(authKey, "Basic xyz".toList)] = none := by
  constructor
  · intro headers
    cases hl : lookupCI authKey headers with
    | none => simp [get_request_token, hl]
    | some v =>
      simp only [get_request_token, hl]
      rw [schemeToken_eq_none_iff]
      constructor
      · intro hcond
        exact Or.inr ⟨v, rfl, Or.inr hcond⟩
      · rintro (hnone | ⟨w, hw, hcase⟩)
        · exact absurd hnone (by simp)
        · cases Option.some.inj hw
          rcases hcase with hnil | hcond
          · subst hnil
            exact ⟨by decide, by decide⟩
          · exact hcond
  · rfl

/-- Claim C7: the authorization header name is looked up case-insensitively:
any mapping whose single key lowercases to "authorization" yields the same
result as one keyed "authorization" with the same value. -/
theorem header_name_lookup_case_insensitive (k : PyStr) (v : PyStr)
    (h : lowerStr k = authKey) :
    get_request_token [(k, v)] = get_request_token [(authKey, v)] := by
  have hlow : lowerStr authKey = authKey := rfl
  simp [get_request_token, lookupCI, hlow, h]

/-- Witness for header_name_lookup_case_insensitive at the header name
"Authorization" carrying a bearer token. -/
theorem header_name_lookup_case_insensitive_witness :
    lowerStr ("Authorization".toList) = authKey ∧
    get_request_token [("Authorization".toList, "bearer oauth_abc123".toList)] =
      get_request_token [(authKey, "bearer oauth_abc123".toList)] :=
  ⟨by decide, header_name_lookup_case_insensitive _ _ (by decide)⟩

/-- Claim C8: the token value after the scheme keyword and the one separating
space is returned verbatim, with no further trimming of leading, trailing or
internal whitespace: any suffix t is returned unchanged, and in particular
the value "bearer  x " (extra internal space, trailing space) yields the
token " x ". -/
theorem token_value_verbatim_no_trimming :
    (∀ t : PyStr, get_request_token [(authKey, "bearer ".toList ++ t)] = some t) ∧
    get_request_token [(authKey, "bearer  x ".toList)] = some (" x ".toList) := by
  exact ⟨fun t => rfl, rfl⟩

/-- Claim C1 counterexample: at the concrete input of an empty header mapping
with FALLBACK_GITEA_TOKEN unset, get_gitea_token_with_fallback fails with the
builtin generic ValueError, which is not the typed, distinguishable
NoTokenError / AuthenticationError the claim states. -/
theorem no_token_failure_is_generic_value_error_cex :
    get_gitea_token_with_fallback (some []) (.ok []) none
      = .error (.valueError noTokenMsg) ∧
    (PyExc.valueError noTokenMsg).isTypedAuthFailure = false := by
  exact ⟨rfl, rfl⟩

/-- Claim C1 as amended: when the supplied headers yield no token and
FALLBACK_GITEA_TOKEN is unset, get_gitea_token_with_fallback fails by raising
the builtin ValueError whose message is "No Gitea API token found", the error
the repository's test pins. -/
theorem no_token_raises_value_error (h : Headers) (ctx : Except PyExc Headers)
    (hnone : get_request_token h = none) :
    get_gitea_token_with_fallback (some h) ctx none
      = .error (.valueError noTokenMsg) := by
  simp [get_gitea_token_with_fallback, resolveHeaders, hnone]

/-- Witness for no_token_raises_value_error at the empty header mapping. -/
theorem no_token_raises_value_error_witness :
    get_request_token [] = none ∧
    get_gitea_token_with_fallback (some []) (.ok []) none
      = .error (.valueError noTokenMsg) :=
  ⟨rfl, no_token_raises_value_error [] (.ok []) rfl⟩

/-- Claim C4: whenever a token can be extracted from the supplied headers and
a non-empty FALLBACK_GITEA_TOKEN is set, get_gitea_token_with_fallback
returns the header-derived token, never the fallback. -/
theorem header_token_precedes_fallback (h : Headers) (ctx : Except PyExc Headers)
    (t f : PyStr) (ht : get_request_token h = some t) (hf : f ≠ []) :
    get_gitea_token_with_fallback (some h) ctx (some f) = .ok t := by
  simp [get_gitea_token_with_fallback, resolveHeaders, ht]

/-- Witness for header_token_precedes_fallback with a bearer header and the
fallback env_ghi789. -/
theorem header_token_precedes_fallback_witness :
    get_request_token [(authKey, "Bearer oauth_abc123".toList)]
      = some ("oauth_abc123".toList) ∧
    "env_ghi789".toList ≠ ([] : PyStr) ∧
    get_gitea_token_with_fallback (some [(authKey, "Bearer oauth_abc123".toList)])
        (.ok []) (some ("env_ghi789".toList)) = .ok ("oauth_abc123".toList) :=
  ⟨rfl, by decide,
    header_token_precedes_fallback _ (.ok []) _ _ rfl (by decide)⟩

/-- Claim C5: when the supplied headers yield no token and a non-empty
FALLBACK_GITEA_TOKEN is set, get_gitea_token_with_fallback returns the
fallback value exactly, unmodified. -/
theorem fallback_returned_when_headers_yield_none (h : Headers)
    (ctx : Except PyExc Headers) (f : PyStr)
    (hn : get_request_token h = none) (hf : f ≠ []) :
    get_gitea_token_with_fallback (some h) ctx (some f) = .ok f := by
  simp [get_gitea_token_with_fallback, resolveHeaders, hn, hf]

/-- Witness for fallback_returned_when_headers_yield_none at the empty
mapping with fallback env_ghi789. -/
theorem fallback_returned_when_headers_yield_none_witness :
    get_request_token [] = none ∧
    "env_ghi789".toList ≠ ([] : PyStr) ∧
    get_gitea_token_with_fallback (some []) (.ok []) (some ("env_ghi789".toList))
      = .ok ("env_ghi789".toList) :=
  ⟨rfl, by decide,
    fallback_returned_when_headers_yield_none [] (.ok []) _ rfl (by decide)⟩

/-- Claim C6: when the ambient-context sentinel is given and the injected
request-context provider raises any exception, the exception never reaches
the caller: resolution falls through and, with a non-empty
FALLBACK_GITEA_TOKEN set, returns the fallback. -/
theorem context_provider_error_swallowed (e : PyExc) (f : PyStr) (hf : f ≠ []) :
    get_gitea_token_with_fallback none (.error e) (some f) = .ok f := by
  simp [get_gitea_token_with_fallback, resolveHeaders, get_request_token,
    lookupCI, hf]

/-- Witness for context_provider_error_swallowed with the provider raising
Exception "Not in HTTP context" and fallback env_ghi789. -/
theorem context_provider_error_swallowed_witness :
    "env_ghi789".toList ≠ ([] : PyStr) ∧
    get_gitea_token_with_fallback none
        (.error (.exception ("Not in HTTP context".toList)))
        (some ("env_ghi789".toList)) = .ok ("env_ghi789".toList) :=
  ⟨by decide, context_provider_error_swallowed _ _ (by decide)⟩

/-- Claim C9: when the ambient-context sentinel is given and the injected
request-context provider returns a header mapping from which a token can be
extracted, that header-derived token is returned, whatever the fallback
setting. -/
theorem context_headers_token_precedes_fallback (h : Headers) (t : PyStr)
    (fallback : Option PyStr) (ht : get_request_token h = some t) :
    get_gitea_token_with_fallback none (.ok h) fallback = .ok t := by
  simp [get_gitea_token_with_fallback, resolveHeaders, ht]

/-- Witness for context_headers_token_precedes_fallback with a bearer header
from the provider and the fallback env_ghi789 set. -/
theorem context_headers_token_precedes_fallback_witness :
    get_request_token [(authKey, "Bearer oauth_abc123".toList)]
      = some ("oauth_abc123".toList) ∧
    get_gitea_token_with_fallback none
        (.ok [(authKey, "Bearer oauth_abc123".toList)])
        (some ("env_ghi789".toList)) = .ok ("oauth_abc123".toList) :=
  ⟨rfl, context_headers_token_precedes_fallback _ _ _ rfl⟩

/-- Claim C10: init_langfuse is idempotent after a successful initialization:
once the _initialized flag is set, a call returns the stored client and the
unchanged state, for every configuration and every constructor, so no new
Langfuse client is constructed and no configuration is read. -/
theorem init_langfuse_idempotent_after_success (cfg : LangfuseConfig)
    (mk : LangfuseConfig → Except PyStr LangfuseClient) (s : LangfuseState)
    (h : s.inited = true) :
    init_langfuse cfg mk s = (s, s.client) := by
  simp [init_langfuse, h]

/-- Witness for init_langfuse_idempotent_after_success at an initialized
state holding a client, with a constructor that would fail if called. -/
theorem init_langfuse_idempotent_after_success_witness :
    stateSample.inited = true ∧
    init_langfuse cfgSample (fun _ => .error []) stateSample
      = (stateSample, stateSample.client) :=
  ⟨rfl, init_langfuse_idempotent_after_success cfgSample (fun _ => .error []) stateSample rfl⟩
